import Mathlib

/-!
Verification of the scores-table state/query orchestration component
(`web/src/components/table/use-cases/scores.tsx`).

Modelling conventions: JavaScript numbers are exact rationals (`ℚ`);
`undefined`/`null` are `Option.none`; a cell renderer that throws is
modelled as returning `none` at the `Option CellValue` level; React
rendering of a raw number child is JS `ToString`.
-/

namespace Scores

/-- JS truncation toward zero (`Math.trunc`), the integer part used by the
JS `%` operator. -/
def jsTrunc (v : ℚ) : ℤ := if 0 ≤ v then ⌊v⌋ else ⌈v⌉

/-- The JS remainder `v % 1`, i.e. `v - trunc(v / 1) * 1`. -/
def jsMod1 (v : ℚ) : ℚ := v - jsTrunc v

/-- Decimal digits of a natural number, left-padded with zeros to 4 places
(the fraction part of `toFixed(4)`). -/
def pad4 (m : ℕ) : String :=
  let s := toString m
  ⟨List.replicate (4 - s.length) '0'⟩ ++ s

/-- `Number.prototype.toFixed(4)` per the ECMAScript algorithm: the sign is
extracted first, then the integer `n` with `n / 10^4` closest to `|v|` is
chosen, ties picking the larger `n`; exponential output for `|v| ≥ 1e21`
is outside the modelled range. -/
def toFixed4 (v : ℚ) : String :=
  let sign := if v < 0 then "-" else ""
  let n : ℤ := ⌊|v| * 10000 + 1 / 2⌋
  let m : ℕ := n.toNat
  sign ++ toString (m / 10000) ++ "." ++ pad4 (m % 10000)

/-- JS `ToString` of an integral number (how React renders the raw number
returned by the Value cell's integral branch). -/
def jsIntToString (v : ℚ) : String := toString v.num

/-- The display string the Value cell produces:
`value % 1 === 0 ? value : value.toFixed(4)`. -/
def valueCellDisplay (v : ℚ) : String :=
  if jsMod1 v = 0 then jsIntToString v else toFixed4 v

/-- JS template-literal interpolation of a possibly-`undefined` string. -/
def jsInterp (v : Option String) : String := v.getD "undefined"

/-- JS truthiness of a possibly-`undefined` string. -/
def jsTruthyStr (v : Option String) : Bool :=
  match v with
  | some s => s != ""
  | none => false

/-- Characters `encodeURIComponent` leaves unescaped. -/
def uriUnreserved (c : Char) : Bool :=
  c.isAlphanum || c = '-' || c = '_' || c = '.' || c = '!' || c = '~' ||
    c = '*' || c = '\'' || c = '(' || c = ')'

/-- One hexadecimal digit, upper case. -/
def hexDigit (n : ℕ) : Char :=
  if n < 10 then Char.ofNat (48 + n) else Char.ofNat (55 + n)

/-- Percent-encoding of one UTF-8 byte. -/
def percentByte (b : UInt8) : String :=
  ⟨['%', hexDigit (b.toNat / 16), hexDigit (b.toNat % 16)]⟩

/-- The JS builtin `encodeURIComponent`: unreserved characters are kept,
every other character is replaced by the percent-encoding of its UTF-8
bytes. -/
def encodeURIComponent (s : String) : String :=
  s.data.foldl
    (fun acc c =>
      if uriUnreserved c then acc.push c
      else (String.singleton c).toUTF8.toList.foldl (fun a b => a ++ percentByte b) acc)
    ""

/-- A filter condition value: the JS `string | number | string[]` union. -/
inductive FilterValue
  | str (s : String)
  | num (q : ℚ)
  | strList (l : List String)
deriving DecidableEq, Repr

/-- One filter condition, as held in filter state and sent in the query. -/
structure FilterCondition where
  column : String
  type : String
  operator : String
  value : FilterValue
deriving DecidableEq, Repr

/-- The single active sort key and direction. -/
structure OrderBy where
  column : String
  order : String
deriving DecidableEq, Repr

/-- Page index and size, as decoded from the address space. -/
structure PaginationState where
  pageIndex : ℤ
  pageSize : ℤ
deriving DecidableEq, Repr

/-- The props of `ScoresTable`. -/
structure ScoresProps where
  projectId : String
  userId : Option String
  omittedFilter : List String
deriving DecidableEq, Repr

/-- The mutable state slices held by the component's hooks. -/
structure ScoresState where
  paginationState : PaginationState
  userFilterState : List FilterCondition
  orderByState : Option OrderBy
deriving DecidableEq, Repr

/-- The pinned condition appended when the `userId` prop is provided
(lines 52-58 of the source). -/
def pinnedUserFilter (u : String) : FilterCondition :=
  { column := "User ID", type := "string", operator := "=", value := .str u }

/-- The component's `filterState`: the user filters, with the pinned User ID
condition concatenated after them when `userId` is present. -/
def filterState (props : ScoresProps) (s : ScoresState) : List FilterCondition :=
  match props.userId with
  | some u => s.userFilterState ++ [pinnedUserFilter u]
  | none => s.userFilterState

/-- The input object handed to `api.scores.all.useQuery`. -/
structure ScoresAllInput where
  page : ℤ
  limit : ℤ
  projectId : String
  filter : List FilterCondition
  orderBy : Option OrderBy
deriving DecidableEq, Repr

/-- The fetch request composed from props and state (lines 67-73). -/
def scoresQueryInput (props : ScoresProps) (s : ScoresState) : ScoresAllInput :=
  { page := s.paginationState.pageIndex
    limit := s.paginationState.pageSize
    projectId := props.projectId
    filter := filterState props s
    orderBy := s.orderByState }

/-- The address fragments relevant to this table, `none` meaning the
fragment is absent from the address space. -/
structure AddressFragments where
  pageIndex : Option ℤ
  pageSize : Option ℤ
  filters : Option (List FilterCondition)
  orderBy : Option (Option OrderBy)

/-- Modelled from the spec: the address-space decoding done by the
`useQueryParams` / `useQueryFilterState` / `useOrderByState` hooks (whose
implementations are not under src/): absent or invalid fragments fall back
to the defaults supplied at the call sites (`pageIndex = 0`,
`pageSize = 50`, empty filters, the caller's default sort). -/
def decodeState (a : AddressFragments) : ScoresState :=
  { paginationState :=
      { pageIndex := a.pageIndex.getD 0, pageSize := a.pageSize.getD 50 }
    userFilterState := a.filters.getD []
    orderByState := a.orderBy.getD (some { column := "timestamp", order := "DESC" }) }

/-- A fresh address space: no fragments present. -/
def freshAddress : AddressFragments := ⟨none, none, none, none⟩

/-- A partial pagination update, `none` for a field that is not given. -/
structure PaginationUpdate where
  pageIndex : Option ℤ := none
  pageSize : Option ℤ := none

/-- Modelled from the spec: `setPaginationState` merges the given fields into
the pagination slice; unspecified fields retain their prior values (§4.4). -/
def setPaginationState (u : PaginationUpdate) (s : ScoresState) : ScoresState :=
  { s with
    paginationState :=
      { pageIndex := u.pageIndex.getD s.paginationState.pageIndex
        pageSize := u.pageSize.getD s.paginationState.pageSize } }

/-- A raw score record as returned by `scores.all`; the timestamp is kept as
its locale-formatted string (`toLocaleString` is locale-dependent and
abstracted as already applied). -/
structure RawScore where
  id : String
  traceId : String
  timestamp : String
  name : String
  value : ℚ
  comment : Option String
  observationId : Option String
  traceName : String
  userId : Option String
deriving DecidableEq, Repr

/-- The projected display row (`ScoresTableRow`). -/
structure ScoresTableRow where
  id : String
  traceId : String
  timestamp : String
  name : String
  value : ℚ
  comment : Option String
  observationId : Option String
  traceName : String
  userId : Option String
deriving DecidableEq, Repr

/-- `convertToTableRow`: field-by-field projection, `?? undefined`
coalescing sending `null` and `undefined` both to `none`. -/
def convertToTableRow (score : RawScore) : ScoresTableRow :=
  { id := score.id
    timestamp := score.timestamp
    name := score.name
    value := score.value
    comment := score.comment
    observationId := score.observationId
    traceId := score.traceId
    traceName := score.traceName
    userId := score.userId }

/-- A row as read by the cell renderers through `row.getValue`: every field
may be `undefined` (the safety claims quantify over rows with missing
fields). -/
structure RowValues where
  traceId : Option String := none
  observationId : Option String := none
  traceName : Option String := none
  timestamp : Option String := none
  name : Option String := none
  value : Option ℚ := none
  userId : Option String := none
  comment : Option String := none
deriving DecidableEq, Repr

/-- What a cell renderer produces: a `TableLink` element, a display string
(numbers are rendered through JS `ToString`), or the JS absent markers. -/
inductive CellValue
  | link (path : String) (label : Option String) (truncateAt : Option ℕ)
  | str (s : String)
  | nul
  | undf
deriving DecidableEq, Repr

/-- Trace ID cell: a link when the value is a string, otherwise `undefined`. -/
def traceIdCell (projectId : String) (row : RowValues) : Option CellValue :=
  match row.traceId with
  | some v => some (.link ("/project/" ++ projectId ++ "/traces/" ++ v) (some v) none)
  | none => some .undf

/-- Observation ID cell: a link embedding both ids when `observationId` and
`traceId` are both strings, otherwise `null`. -/
def observationIdCell (projectId : String) (row : RowValues) : Option CellValue :=
  match row.observationId, row.traceId with
  | some o, some t =>
      some (.link ("/project/" ++ projectId ++ "/traces/" ++ t ++ "?observation=" ++ o)
        (some o) none)
  | _, _ => some .nul

/-- Trace Name cell: always a link; the address filter fragment is included
only when the name is truthy, and an `undefined` name interpolates as the
string `"undefined"` inside the encoded fragment. -/
def traceNameCell (projectId : String) (row : RowValues) : Option CellValue :=
  let value := row.traceName
  let filter := encodeURIComponent ("name;stringOptions;;any of;" ++ jsInterp value)
  some (.link
    ("/project/" ++ projectId ++ "/traces?filter=" ++ (if jsTruthyStr value then filter else ""))
    value (some 40))

/-- Value cell: `value % 1 === 0 ? value : value.toFixed(4)`. On an
`undefined` value the test is false (`undefined % 1` is `NaN`) and
`undefined.toFixed(4)` throws a `TypeError`, modelled as `none`. -/
def valueCell (row : RowValues) : Option CellValue :=
  match row.value with
  | some v => some (.str (valueCellDisplay v))
  | none => none

/-- User ID cell: a link when the value is a string, otherwise `undefined`. -/
def userIdCell (projectId : String) (row : RowValues) : Option CellValue :=
  match row.userId with
  | some v => some (.link ("/project/" ++ projectId ++ "/users/" ++ v) (some v) (some 40))
  | none => some .undf

/-- One entry of the `LangfuseColumnDef` list; `cell = none` means the
column uses the default accessor rendering. -/
structure ColumnDefn where
  accessorKey : String
  id : String
  header : String
  enableColumnFilter : Bool := false
  enableSorting : Bool := false
  enableHiding : Bool := false
  cell : Option (String → RowValues → Option CellValue) := none

/-- The display column schema of the scores table, in source order. -/
def scoresColumns : List ColumnDefn :=
  [ { accessorKey := "traceId", id := "traceId", header := "Trace ID",
      enableColumnFilter := true, enableSorting := true, cell := some traceIdCell },
    { accessorKey := "observationId", id := "observationId", header := "Observation ID",
      enableSorting := true, cell := some observationIdCell },
    { accessorKey := "traceName", id := "traceName", header := "Trace Name",
      enableHiding := true, enableSorting := true, cell := some traceNameCell },
    { accessorKey := "timestamp", id := "timestamp", header := "Timestamp",
      enableHiding := true, enableSorting := true },
    { accessorKey := "name", id := "name", header := "Name",
      enableHiding := true, enableSorting := true },
    { accessorKey := "value", id := "value", header := "Value",
      enableHiding := true, enableSorting := true, cell := some (fun _ => valueCell) },
    { accessorKey := "userId", id := "userId", header := "User ID",
      enableHiding := true, enableSorting := true, cell := some userIdCell },
    { accessorKey := "comment", id := "comment", header := "Comment",
      enableHiding := true } ]

/-- The dynamic filter-option metadata (`ScoreOptions`). -/
structure ScoreOptions where
  name : List String
deriving DecidableEq, Repr

/-- One filterable-column descriptor. -/
structure FilterColDef where
  name : String
  type : String
  options : List String
deriving DecidableEq, Repr

/-- Modelled from the spec: `scoresTableColsWithOptions` (the column
registry under `server/api/definitions/scoresTable`, not under src/):
static filterable descriptors plus, once the dynamic metadata has
resolved, the descriptors that depend on it — option-dependent descriptors
are omitted until the metadata arrives (§4.6). -/
def scoresTableColsWithOptions (opts : Option ScoreOptions) : List FilterColDef :=
  [ { name := "Timestamp", type := "datetime", options := [] },
    { name := "Value", type := "number", options := [] },
    { name := "User ID", type := "string", options := [] } ] ++
  (match opts with
   | some o => [{ name := "Name", type := "stringOptions", options := o.name }]
   | none => [])

/-- `transformFilterOptions`: drop the descriptors whose name appears in
`omittedFilter` (lines 207-213). -/
def transformFilterOptions (omittedFilter : List String) (opts : Option ScoreOptions) :
    List FilterColDef :=
  (scoresTableColsWithOptions opts).filter (fun c => !(omittedFilter.contains c.name))

/-- The payload of a successful `scores.all` response. -/
structure ScoresAllOutput where
  scores : List RawScore
  totalCount : ℤ
deriving DecidableEq, Repr

/-- The error object of a failed fetch. -/
structure FetchError where
  message : String
deriving DecidableEq, Repr

/-- The react-query result of `api.scores.all.useQuery` as the component
reads it: the loading/error flags with the optional error and data. -/
structure QueryState where
  isLoading : Bool
  isError : Bool
  error : Option FetchError
  data : Option ScoresAllOutput
deriving DecidableEq, Repr

/-- A well-formed react-query result: an error result carries an error
object, and a settled non-error result carries data. -/
def WellFormedQuery (q : QueryState) : Prop :=
  (q.isError = true → q.error.isSome) ∧
  (q.isLoading = false → q.isError = false → q.data.isSome)

/-- The object passed as the `data` prop of `DataTable`. -/
structure TableData where
  isLoading : Bool
  isError : Bool
  error : Option String := none
  data : Option (List ScoresTableRow) := none
deriving DecidableEq, Repr

/-- The `data` prop handed to `DataTable` (lines 225-240): loading first,
then error (reading `scores.error.message`), else success (reading
`scores.data.scores`); reading a field of a missing object is modelled as
`none`. -/
def dataProp (q : QueryState) : Option TableData :=
  if q.isLoading then some { isLoading := true, isError := false }
  else if q.isError then
    q.error.map (fun e => { isLoading := false, isError := true, error := some e.message })
  else
    q.data.map (fun d =>
      { isLoading := false, isError := false
        data := some (d.scores.map convertToTableRow) })

/-- `scores.data?.totalCount ?? 0` (line 74). -/
def totalCountOf (q : QueryState) : ℤ := (q.data.map ScoresAllOutput.totalCount).getD 0

/-- `Math.ceil(totalCount / pageSize)` (line 243), JS division modelled as
exact rational division (every claim considered has `pageSize > 0`). -/
def pageCount (totalCount pageSize : ℤ) : ℤ := ⌈(totalCount : ℚ) / (pageSize : ℚ)⌉

/-- The props the component renders `DataTableToolbar` and `DataTable`
with. -/
structure ScoresTableView where
  toolbarColumns : List ColumnDefn
  filterColumnDefinition : List FilterColDef
  toolbarFilterState : List FilterCondition
  tableColumns : List ColumnDefn
  tableData : Option TableData
  pageCount : ℤ
  paginationState : PaginationState
  orderBy : Option OrderBy

/-- The rendered output of `ScoresTable` as a function of its props, its
state and the two query results (lines 215-251). -/
def scoresTableView (props : ScoresProps) (s : ScoresState) (scores : QueryState)
    (filterOptions : Option ScoreOptions) : ScoresTableView :=
  { toolbarColumns := scoresColumns
    filterColumnDefinition := transformFilterOptions props.omittedFilter filterOptions
    toolbarFilterState := s.userFilterState
    tableColumns := scoresColumns
    tableData := dataProp scores
    pageCount := pageCount (totalCountOf scores) s.paginationState.pageSize
    paginationState := s.paginationState
    orderBy := s.orderByState }

/-! ## Helper lemmas -/

theorem jsTrunc_intCast (n : ℤ) : jsTrunc (n : ℚ) = n := by
  unfold jsTrunc
  split
  · exact Int.floor_intCast n
  · exact Int.ceil_intCast n

theorem jsMod1_eq_zero_iff (v : ℚ) : jsMod1 v = 0 ↔ v.den = 1 := by
  unfold jsMod1
  rw [sub_eq_zero]
  constructor
  · intro h
    have := congrArg Rat.den h
    simpa using this
  · intro h
    have hv : (v.num : ℚ) = v := (Rat.den_eq_one_iff v).1 h
    have h2 : jsTrunc v = v.num := by
      conv_lhs => rw [← hv]
      exact jsTrunc_intCast v.num
    rw [h2, hv]

theorem ceil_div_eq (a b : ℤ) (hb : 0 < b) :
    ⌈(a : ℚ) / (b : ℚ)⌉ = (a + b - 1) / b := by
  have hbq : (0 : ℚ) < (b : ℚ) := by exact_mod_cast hb
  set n : ℤ := (a + b - 1) / b with hn
  have hmod : b * n + (a + b - 1) % b = a + b - 1 := Int.ediv_add_emod (a + b - 1) b
  have hr0 : 0 ≤ (a + b - 1) % b := Int.emod_nonneg _ (ne_of_gt hb)
  have hr1 : (a + b - 1) % b < b := Int.emod_lt_of_pos _ hb
  rw [Int.ceil_eq_iff]
  constructor
  · rw [lt_div_iff₀ hbq]
    have : (n - 1) * b < a := by nlinarith
    exact_mod_cast this
  · rw [div_le_iff₀ hbq]
    have : a ≤ n * b := by nlinarith
    exact_mod_cast this

/-! ## Claims -/

/-- C2: with no address fragments present and no `userId` prop, the composed
fetch request has page 0, limit 50, empty filter and order-by
timestamp/DESC. -/
theorem c2_default_request (pid : String) (om : List String) :
    scoresQueryInput ⟨pid, none, om⟩ (decodeState freshAddress) =
      { page := 0, limit := 50, projectId := pid, filter := [],
        orderBy := some { column := "timestamp", order := "DESC" } } := rfl

/-- C3: the Value cell renders an integral value as its plain integer string
and a non-integral value by 4-decimal fixed point; concretely `3 ↦ "3"`,
`3.14159 ↦ "3.1416"` and `3.1 ↦ "3.1000"`. -/
theorem c3_value_cell_rendering (v : ℚ) :
    (v.den = 1 → valueCellDisplay v = toString v.num) ∧
    (v.den ≠ 1 → valueCellDisplay v = toFixed4 v) ∧
    valueCellDisplay 3 = "3" ∧
    valueCellDisplay (314159 / 100000) = "3.1416" ∧
    valueCellDisplay (31 / 10) = "3.1000" := by
  have hint : ∀ w : ℚ, w.den = 1 → valueCellDisplay w = toString w.num := by
    intro w hw
    unfold valueCellDisplay
    rw [if_pos ((jsMod1_eq_zero_iff w).2 hw)]
    rfl
  have hfrac : ∀ w : ℚ, w.den ≠ 1 → valueCellDisplay w = toFixed4 w := by
    intro w hw
    unfold valueCellDisplay
    rw [if_neg (fun hz => hw ((jsMod1_eq_zero_iff w).1 hz))]
  refine ⟨hint v, hfrac v, ?_, ?_, ?_⟩
  · rw [hint 3 rfl]
    decide
  · rw [hfrac (314159 / 100000) (by norm_num [Rat.den_div_eq_of_coprime])]
    have hfl : ⌊|(314159 : ℚ) / 100000| * 10000 + 1 / 2⌋ = 31416 := by
      rw [abs_of_nonneg (by norm_num), Int.floor_eq_iff]
      norm_num
    unfold toFixed4
    rw [if_neg (by norm_num), hfl]
    decide
  · rw [hfrac (31 / 10) (by norm_num [Rat.den_div_eq_of_coprime])]
    have hfl : ⌊|(31 : ℚ) / 10| * 10000 + 1 / 2⌋ = 31000 := by
      rw [abs_of_nonneg (by norm_num), Int.floor_eq_iff]
      norm_num
    unfold toFixed4
    rw [if_neg (by norm_num), hfl]
    decide

/-- Witness for C3 at the concrete inputs 3 and 3.1. -/
theorem c3_value_cell_rendering_witness :
    valueCellDisplay 3 = toString (3 : ℚ).num ∧
    valueCellDisplay (31 / 10) = toFixed4 (31 / 10) :=
  ⟨(c3_value_cell_rendering 3).1 rfl,
    (c3_value_cell_rendering (31 / 10)).2.1 (by norm_num [Rat.den_div_eq_of_coprime])⟩

/-- C4: the page count handed to the pagination component is
`⌈totalCount / pageSize⌉`, equal to the integer formula
`(totalCount + pageSize - 1) / pageSize`; it is 0 when `totalCount = 0`,
and `totalCount` defaults to 0 whenever no fetch result is available. -/
theorem c4_page_count (tc ps : ℤ) (_htc : 0 ≤ tc) (hps : 0 < ps) :
    pageCount tc ps = (tc + ps - 1) / ps ∧
    (tc = 0 → pageCount tc ps = 0) ∧
    (∀ q : QueryState, q.data = none → totalCountOf q = 0) ∧
    (∀ props s q fo, (scoresTableView props s q fo).pageCount =
        pageCount (totalCountOf q) s.paginationState.pageSize) := by
  refine ⟨ceil_div_eq tc ps hps, fun h0 => ?_, fun q hq => by simp [totalCountOf, hq],
    fun props s q fo => rfl⟩
  subst h0
  simp [pageCount]

/-- Witness for C4 at `totalCount = 101`, `pageSize = 50`. -/
theorem c4_page_count_witness : pageCount 101 50 = 3 ∧ pageCount 0 50 = 0 := by
  have h := c4_page_count 101 50 (by norm_num) (by norm_num)
  have h0 := c4_page_count 0 50 (le_refl 0) (by norm_num)
  refine ⟨?_, h0.2.1 rfl⟩
  rw [h.1]
  decide

/-- C5: updating only the `pageSize` field leaves `pageIndex` and the filter
unchanged — the next composed request is the previous one with
`limit := 25` (in particular `pageIndex` is not reset to 0). -/
theorem c5_page_size_frame (props : ScoresProps) (s : ScoresState) :
    scoresQueryInput props (setPaginationState { pageSize := some 25 } s) =
      { scoresQueryInput props s with limit := 25 } := rfl

/-- C6 counterexample: at concrete rows with missing fields the claim fails
in both of its named instances: the Value cell on an `undefined` value
reaches `undefined.toFixed(4)` and throws a `TypeError` (modelled as
`none`) instead of yielding an absent marker, and the Trace Name cell on an
`undefined` name yields a link (with an empty address-filter fragment),
not the absent marker `undefined` or `null`. -/
theorem c6_missing_field_counterexample :
    valueCell {} = none ∧
    traceNameCell "p" {} = some (.link "/project/p/traces?filter=" none (some 40)) ∧
    traceNameCell "p" {} ≠ some .undf ∧
    traceNameCell "p" {} ≠ some .nul := by
  refine ⟨rfl, rfl, ?_, ?_⟩ <;> decide

/-- C6 (amended): the guarded cells (Trace ID, Observation ID, User ID)
terminate without throwing on every row and yield the explicit absent
marker on a missing field; the Trace Name cell always terminates but yields
a link (with an empty address-filter fragment) rather than an absent marker
when `traceName` is missing; the Value cell terminates exactly when the
row's `value` field is present, and throws when it is `undefined`. -/
theorem c6_cell_renderers_no_throw (pid : String) (row : RowValues) :
    (traceIdCell pid row).isSome ∧
    (row.traceId = none → traceIdCell pid row = some .undf) ∧
    (observationIdCell pid row).isSome ∧
    (row.observationId = none → observationIdCell pid row = some .nul) ∧
    (traceNameCell pid row).isSome ∧
    (row.traceName = none → traceNameCell pid row =
        some (.link ("/project/" ++ pid ++ "/traces?filter=") none (some 40))) ∧
    (userIdCell pid row).isSome ∧
    (row.userId = none → userIdCell pid row = some .undf) ∧
    ((valueCell row).isSome ↔ row.value.isSome) := by
  refine ⟨?_, ?_, ?_, ?_, ?_, ?_, ?_, ?_, ?_⟩
  · cases h : row.traceId <;> simp [traceIdCell, h]
  · intro h
    simp [traceIdCell, h]
  · cases ho : row.observationId <;> cases ht : row.traceId <;>
      simp [observationIdCell, ho, ht]
  · intro h
    cases ht : row.traceId <;> simp [observationIdCell, h, ht]
  · simp [traceNameCell]
  · intro h
    simp [traceNameCell, h, jsTruthyStr]
  · cases h : row.userId <;> simp [userIdCell, h]
  · intro h
    simp [userIdCell, h]
  · cases h : row.value <;> simp [valueCell, h]

/-- Witness for C6 at concrete rows. -/
theorem c6_cell_renderers_no_throw_witness :
    traceIdCell "p" {} = some .undf ∧
    traceNameCell "p" {} =
      some (.link ("/project/" ++ "p" ++ "/traces?filter=") none (some 40)) ∧
    ((valueCell { value := some 3 }).isSome ↔
      ({ value := some 3 } : RowValues).value.isSome) :=
  ⟨(c6_cell_renderers_no_throw "p" {}).2.1 rfl,
    (c6_cell_renderers_no_throw "p" {}).2.2.2.2.2.1 rfl,
    (c6_cell_renderers_no_throw "p" { value := some 3 }).2.2.2.2.2.2.2.2⟩

/-- C7: the filterable descriptors handed to the toolbar are exactly the
full descriptor set minus those whose name appears in `omittedFilter`
(order preserved), while the display columns handed to toolbar and table do
not depend on `omittedFilter`. -/
theorem c7_omitted_filter_columns (props : ScoresProps) (s : ScoresState) (q : QueryState)
    (fo : Option ScoreOptions) :
    ((scoresTableView props s q fo).filterColumnDefinition =
        (scoresTableColsWithOptions fo).filter
          (fun c => !(props.omittedFilter.contains c.name))) ∧
    (∀ c, c ∈ (scoresTableView props s q fo).filterColumnDefinition ↔
        c ∈ scoresTableColsWithOptions fo ∧ c.name ∉ props.omittedFilter) ∧
    ((scoresTableView props s q fo).filterColumnDefinition.Sublist
        (scoresTableColsWithOptions fo)) ∧
    (∀ om : List String,
      (scoresTableView { props with omittedFilter := om } s q fo).toolbarColumns =
          (scoresTableView props s q fo).toolbarColumns ∧
      (scoresTableView { props with omittedFilter := om } s q fo).tableColumns =
          (scoresTableView props s q fo).tableColumns) := by
  refine ⟨rfl, fun c => ?_, ?_, fun om => ⟨rfl, rfl⟩⟩
  · simp only [scoresTableView, transformFilterOptions]
    rw [List.mem_filter]
    simp
  · simp only [scoresTableView, transformFilterOptions]
    exact List.filter_sublist _

/-- Witness for C7: omitting `"Value"` removes exactly the Value descriptor. -/
theorem c7_omitted_filter_columns_witness :
    (⟨"Value", "number", []⟩ : FilterColDef) ∉
      (scoresTableView ⟨"p", none, ["Value"]⟩ (decodeState freshAddress)
        ⟨true, false, none, none⟩ none).filterColumnDefinition :=
  fun hmem =>
    (((c7_omitted_filter_columns ⟨"p", none, ["Value"]⟩ (decodeState freshAddress)
        ⟨true, false, none, none⟩ none).2.1 _).1 hmem).2 (by simp)

/-- C8: for every well-formed fetch result the `data` prop is exactly one of
the three mutually exclusive states — loading, error carrying the fetch
error's message, or success carrying the projected rows — and loading takes
precedence while the fetch is in flight. -/
theorem c8_three_display_states (q : QueryState) (hq : WellFormedQuery q) :
    ∃ t, dataProp q = some t ∧
      ((t.isLoading = true ∧ t.isError = false ∧ t.error = none ∧ t.data = none) ∨
        (t.isLoading = false ∧ t.isError = true ∧ t.data = none ∧
          ∃ e, q.error = some e ∧ t.error = some e.message) ∨
        (t.isLoading = false ∧ t.isError = false ∧ t.error = none ∧
          ∃ d, q.data = some d ∧ t.data = some (d.scores.map convertToTableRow))) ∧
      (q.isLoading = true → t.isLoading = true) := by
  obtain ⟨h1, h2⟩ := hq
  cases hl : q.isLoading
  case true =>
    refine ⟨{ isLoading := true, isError := false }, ?_,
      Or.inl ⟨rfl, rfl, rfl, rfl⟩, fun _ => rfl⟩
    simp [dataProp, hl]
  case false =>
    cases he : q.isError
    case true =>
      obtain ⟨e, hee⟩ := Option.isSome_iff_exists.1 (h1 he)
      refine ⟨{ isLoading := false, isError := true, error := some e.message }, ?_,
        Or.inr (Or.inl ⟨rfl, rfl, rfl, e, hee, rfl⟩),
        fun hcon => absurd hcon (by simp [hl])⟩
      simp [dataProp, hl, he, hee]
    case false =>
      obtain ⟨d, hd⟩ := Option.isSome_iff_exists.1 (h2 hl he)
      refine ⟨⟨false, false, none, some (d.scores.map convertToTableRow)⟩, ?_,
        Or.inr (Or.inr ⟨rfl, rfl, rfl, d, hd, rfl⟩),
        fun hcon => absurd hcon (by simp [hl])⟩
      simp [dataProp, hl, he, hd]

/-- Witness for C8 at the in-flight query state. -/
theorem c8_three_display_states_witness :
    ∃ t, dataProp ⟨true, false, none, none⟩ = some t ∧
      ((t.isLoading = true ∧ t.isError = false ∧ t.error = none ∧ t.data = none) ∨
        (t.isLoading = false ∧ t.isError = true ∧ t.data = none ∧
          ∃ e, (⟨true, false, none, none⟩ : QueryState).error = some e ∧
            t.error = some e.message) ∨
        (t.isLoading = false ∧ t.isError = false ∧ t.error = none ∧
          ∃ d, (⟨true, false, none, none⟩ : QueryState).data = some d ∧
            t.data = some (d.scores.map convertToTableRow))) ∧
      ((⟨true, false, none, none⟩ : QueryState).isLoading = true →
        t.isLoading = true) :=
  c8_three_display_states ⟨true, false, none, none⟩ ⟨by simp, by simp⟩

/-- C10: the Observation ID cell yields a link whose path embeds both the
row's `traceId` and `observationId` exactly when both are strings; when
`traceId` is absent the cell yields `null` even if `observationId` is
present. -/
theorem c10_observation_id_link (pid : String) (row : RowValues) :
    (∀ o t, row.observationId = some o → row.traceId = some t →
        observationIdCell pid row =
          some (.link ("/project/" ++ pid ++ "/traces/" ++ t ++ "?observation=" ++ o)
            (some o) none)) ∧
    ((∃ p l tr, observationIdCell pid row = some (.link p l tr)) ↔
        row.observationId.isSome ∧ row.traceId.isSome) ∧
    (row.traceId = none → observationIdCell pid row = some .nul) := by
  refine ⟨fun o t ho ht => by simp [observationIdCell, ho, ht], ?_, fun ht => ?_⟩
  · cases ho : row.observationId <;> cases ht : row.traceId <;>
      simp [observationIdCell, ho, ht]
  · cases ho : row.observationId <;> simp [observationIdCell, ho, ht]

/-- Witness for C10: `observationId` present but `traceId` absent yields
`null`. -/
theorem c10_observation_id_link_witness :
    observationIdCell "p" { observationId := some "o1" } = some .nul :=
  (c10_observation_id_link "p" { observationId := some "o1" }).2.2 rfl

end Scores
